import Mathlib

/-!
Verification of the dataset-versioning and statistical-analysis engine.

The Python source is shallowly embedded: pandas dataframes become lists of
rows over `Option ℚ` cells (None modelling a missing value / NaN after
`dropna`), the mutable module-level stores become an explicit `Store`
state threaded through the operations, float arithmetic is idealised as
exact rational arithmetic, and external library functions whose values the
code merely consumes (`np.sqrt`, the normal CDF, the two-sided t p-value)
are abstract function parameters constrained only by their documented
symmetries.
-/

namespace EdaAgent

/-! ## Rounding

`round(x, 2)` in Python rounds half to even.  We idealise the binary float
as an exact rational. -/

def roundHalfEvenInt (s : ℚ) : ℤ :=
  if s - (⌊s⌋ : ℚ) < 1/2 then ⌊s⌋
  else if s - (⌊s⌋ : ℚ) > 1/2 then ⌊s⌋ + 1
  else if ⌊s⌋ % 2 = 0 then ⌊s⌋ else ⌊s⌋ + 1

def pyRound2 (q : ℚ) : ℚ := ((roundHalfEvenInt (q * 100) : ℤ) : ℚ) / 100

theorem floor_le_roundHalfEvenInt (s : ℚ) : ⌊s⌋ ≤ roundHalfEvenInt s := by
  unfold roundHalfEvenInt
  split
  · omega
  · split
    · omega
    · split <;> omega

theorem roundHalfEvenInt_le_ceil (s : ℚ) : roundHalfEvenInt s ≤ ⌈s⌉ := by
  unfold roundHalfEvenInt
  have hfc : ⌊s⌋ ≤ ⌈s⌉ := Int.floor_le_ceil s
  split
  · exact hfc
  · rename_i hge
    push_neg at hge
    have hlt : ((⌊s⌋ : ℤ) : ℚ) < s := by linarith
    have hceil : ⌊s⌋ + 1 ≤ ⌈s⌉ := by
      have h1 : ((⌊s⌋ : ℤ) : ℚ) < ((⌈s⌉ : ℤ) : ℚ) := lt_of_lt_of_le hlt (Int.le_ceil s)
      have h2 : ⌊s⌋ < ⌈s⌉ := by exact_mod_cast h1
      omega
    split
    · exact hceil
    · split
      · omega
      · exact hceil

theorem pyRound2_nonneg {q : ℚ} (h : 0 ≤ q) : 0 ≤ pyRound2 q := by
  unfold pyRound2
  have hs : (0 : ℚ) ≤ q * 100 := by positivity
  have hf : (0 : ℤ) ≤ ⌊q * 100⌋ := Int.floor_nonneg.mpr hs
  have hk : (0 : ℤ) ≤ roundHalfEvenInt (q * 100) :=
    le_trans hf (floor_le_roundHalfEvenInt _)
  have : (0 : ℚ) ≤ (roundHalfEvenInt (q * 100) : ℚ) := by exact_mod_cast hk
  positivity

theorem pyRound2_le_hundred {q : ℚ} (h : q ≤ 100) : pyRound2 q ≤ 100 := by
  unfold pyRound2
  have hs : q * 100 ≤ ((10000 : ℤ) : ℚ) := by push_cast; linarith
  have hc : ⌈q * 100⌉ ≤ 10000 := Int.ceil_le.mpr hs
  have hk : roundHalfEvenInt (q * 100) ≤ 10000 :=
    le_trans (roundHalfEvenInt_le_ceil _) hc
  have hq : (roundHalfEvenInt (q * 100) : ℚ) ≤ 10000 := by exact_mod_cast hk
  linarith

/-! ## Data model for quality scoring (`src/utils/schemas.py`) -/

structure NumericSummary where
  mean : ℚ
  std : Option ℚ
  min : ℚ
  q1 : ℚ
  median : ℚ
  q3 : ℚ
  max : ℚ
  iqr : ℚ
  outlier_count : ℕ
  outliers : List ℚ
  outliers_truncated : Bool
  outlier_method : String
deriving DecidableEq

structure DataQualityColumn where
  name : String
  pandas_dtype : String
  n_missing : ℕ
  missing_pct : ℚ
  n_unique : ℕ
  is_constant : Bool
  is_all_unique : Bool
  numeric_summary : Option NumericSummary
deriving DecidableEq

structure ReadinessComponents where
  missingness : ℚ
  duplicates : ℚ
  constants : ℚ
  high_missing_columns : ℚ
  outliers : ℚ
deriving DecidableEq

/-- `components = none` models the empty Python dict `{}` returned on the
empty-dataset short-circuit; in the main branch all five keys are present. -/
structure ReadinessScore where
  overall : ℚ
  components : Option ReadinessComponents
  notes : List String
deriving DecidableEq

/-! ## `compute_readiness_score` (`src/tools/data_quality_tools.py:17-113`)

The `n_rows <= 0` guard returns before any division; the `except` fallback
at the end of the Python function is unreachable in the embedding because
rational arithmetic is total. -/

def totalColsQ (columns : List DataQualityColumn) : ℚ :=
  if columns.length = 0 then 1 else (columns.length : ℚ)

def avgMissing (columns : List DataQualityColumn) : ℚ :=
  if columns.length = 0 then 0
  else (columns.map (·.missing_pct)).sum / (columns.length : ℚ)

def constantFraction (columns : List DataQualityColumn) : ℚ :=
  ((columns.filter (·.is_constant)).length : ℚ) / totalColsQ columns

def highMissingFraction (columns : List DataQualityColumn) : ℚ :=
  ((columns.filter (fun c => c.missing_pct > 2/5)).length : ℚ) / totalColsQ columns

def totalOutlierCount (columns : List DataQualityColumn) : ℕ :=
  ((columns.filterMap (·.numeric_summary)).map (·.outlier_count)).sum

def numericValueCounts (columns : List DataQualityColumn) : ℕ :=
  ((columns.filterMap (·.numeric_summary)).map (fun ns => ns.outlier_count + 1)).sum

def outlierDensity (columns : List DataQualityColumn) : ℚ :=
  if numericValueCounts columns > 0 then
    (totalOutlierCount columns : ℚ) / (numericValueCounts columns : ℚ)
  else 0

def readinessComponentsOf (duplicate_pct : ℚ)
    (columns : List DataQualityColumn) : ReadinessComponents :=
  { missingness := pyRound2 (max 0 (100 - (avgMissing columns * 100 * (6/5))))
    duplicates := pyRound2 (max 0 (100 - (duplicate_pct * 100 * (3/2))))
    constants := pyRound2 (max 0 (100 - (constantFraction columns * 100 * 2)))
    high_missing_columns := pyRound2 (max 0 (100 - (highMissingFraction columns * 100 * (5/2))))
    outliers := pyRound2 (max 0 (100 - (outlierDensity columns * 100 * (4/5)))) }

/-- `sum(components.values())` -/
def componentsSum (c : ReadinessComponents) : ℚ :=
  c.missingness + c.duplicates + c.constants + c.high_missing_columns + c.outliers

def readinessNotesOf (duplicate_pct : ℚ) (columns : List DataQualityColumn) : List String :=
  (if avgMissing columns > 3/10 then ["High average missingness; consider aggressive cleaning."] else []) ++
  (if duplicate_pct > 1/20 then ["Notable duplicate rows present."] else []) ++
  (if constantFraction columns > 1/10 then ["Several constant columns provide no variance."] else []) ++
  (if highMissingFraction columns > 1/5 then ["Multiple columns with >40% missing values."] else []) ++
  (if outlierDensity columns > 3/20 then ["High outlier density in numeric columns."] else [])

def compute_readiness_score (n_rows : ℤ) (duplicate_pct : ℚ)
    (columns : List DataQualityColumn) : ReadinessScore :=
  if n_rows ≤ 0 then
    { overall := 0, components := none, notes := ["Empty dataset"] }
  else
    { overall := max 0 (min 100
        (pyRound2 (componentsSum (readinessComponentsOf duplicate_pct columns) / 5)))
      components := some (readinessComponentsOf duplicate_pct columns)
      notes := readinessNotesOf duplicate_pct columns }

/-- Any penalised component `round(max(0, 100 - pen), 2)` with a nonnegative
penalty lies in `[0, 100]`. -/
theorem score_component_bounds (pen : ℚ) (hp : 0 ≤ pen) :
    0 ≤ pyRound2 (max 0 (100 - pen)) ∧ pyRound2 (max 0 (100 - pen)) ≤ 100 :=
  ⟨pyRound2_nonneg (le_max_left 0 _),
   pyRound2_le_hundred (max_le (by norm_num) (by linarith))⟩

theorem avgMissing_nonneg {columns : List DataQualityColumn}
    (hm : ∀ c ∈ columns, 0 ≤ c.missing_pct) : 0 ≤ avgMissing columns := by
  unfold avgMissing
  split
  · exact le_refl 0
  · apply div_nonneg
    · apply List.sum_nonneg
      intro x hx
      obtain ⟨c, hc, rfl⟩ := List.mem_map.mp hx
      exact hm c hc
    · positivity

theorem totalColsQ_nonneg (columns : List DataQualityColumn) : 0 ≤ totalColsQ columns := by
  unfold totalColsQ
  split <;> positivity

theorem constantFraction_nonneg (columns : List DataQualityColumn) : 0 ≤ constantFraction columns :=
  div_nonneg (by positivity) (totalColsQ_nonneg columns)

theorem highMissingFraction_nonneg (columns : List DataQualityColumn) : 0 ≤ highMissingFraction columns :=
  div_nonneg (by positivity) (totalColsQ_nonneg columns)

theorem outlierDensity_nonneg (columns : List DataQualityColumn) : 0 ≤ outlierDensity columns := by
  unfold outlierDensity
  split
  · positivity
  · exact le_refl 0

/-- **C2.** With `row_count > 0` the overall readiness score and each of the
five components lie in `[0,100]`; with `row_count = 0` the scorer
short-circuits to `overall = 0`, no components, and the single
"Empty dataset" note, never reaching the weighted formula. -/
theorem readiness_score_bounds (n_rows : ℤ) (duplicate_pct : ℚ)
    (columns : List DataQualityColumn)
    (hd : 0 ≤ duplicate_pct)
    (hm : ∀ c ∈ columns, 0 ≤ c.missing_pct) :
    (0 < n_rows →
      ∃ comps, (compute_readiness_score n_rows duplicate_pct columns).components = some comps ∧
        (0 ≤ comps.missingness ∧ comps.missingness ≤ 100) ∧
        (0 ≤ comps.duplicates ∧ comps.duplicates ≤ 100) ∧
        (0 ≤ comps.constants ∧ comps.constants ≤ 100) ∧
        (0 ≤ comps.high_missing_columns ∧ comps.high_missing_columns ≤ 100) ∧
        (0 ≤ comps.outliers ∧ comps.outliers ≤ 100) ∧
        0 ≤ (compute_readiness_score n_rows duplicate_pct columns).overall ∧
        (compute_readiness_score n_rows duplicate_pct columns).overall ≤ 100) ∧
    (n_rows = 0 →
      compute_readiness_score n_rows duplicate_pct columns =
        { overall := 0, components := none, notes := ["Empty dataset"] }) := by
  constructor
  · intro hpos
    rw [compute_readiness_score, if_neg (by omega)]
    refine ⟨readinessComponentsOf duplicate_pct columns, rfl, ?_, ?_, ?_, ?_, ?_, ?_, ?_⟩
    · exact score_component_bounds _ (by
        have := avgMissing_nonneg hm
        positivity)
    · exact score_component_bounds _ (by positivity)
    · exact score_component_bounds _ (by
        have := constantFraction_nonneg columns
        positivity)
    · exact score_component_bounds _ (by
        have := highMissingFraction_nonneg columns
        positivity)
    · exact score_component_bounds _ (by
        have := outlierDensity_nonneg columns
        positivity)
    · exact le_max_left 0 _
    · exact max_le (by norm_num) (min_le_left 100 _)
  · intro hz
    rw [compute_readiness_score, if_pos (by omega)]

/-- A concrete numeric column used by witnesses. -/
def ageColumn : DataQualityColumn :=
  { name := "age", pandas_dtype := "int64", n_missing := 2, missing_pct := 1/50,
    n_unique := 90, is_constant := false, is_all_unique := false,
    numeric_summary := some
      { mean := 50, std := some 10, min := 0, q1 := 40, median := 50, q3 := 60,
        max := 200, iqr := 20, outlier_count := 3, outliers := [0, 150, 200],
        outliers_truncated := false, outlier_method := "both" } }

/-- Witness for `readiness_score_bounds` at a concrete call. -/
theorem readiness_score_bounds_witness :
    (0 : ℚ) ≤ 1/20 ∧
    ((0 : ℤ) < 100 →
      ∃ comps, (compute_readiness_score 100 (1/20) [ageColumn]).components = some comps ∧
        (0 ≤ comps.missingness ∧ comps.missingness ≤ 100) ∧
        (0 ≤ comps.duplicates ∧ comps.duplicates ≤ 100) ∧
        (0 ≤ comps.constants ∧ comps.constants ≤ 100) ∧
        (0 ≤ comps.high_missing_columns ∧ comps.high_missing_columns ≤ 100) ∧
        (0 ≤ comps.outliers ∧ comps.outliers ≤ 100) ∧
        0 ≤ (compute_readiness_score 100 (1/20) [ageColumn]).overall ∧
        (compute_readiness_score 100 (1/20) [ageColumn]).overall ≤ 100) := by
  refine ⟨by norm_num, ?_⟩
  exact (readiness_score_bounds 100 (1/20) [ageColumn] (by norm_num)
    (by intro c hc; simp at hc; subst hc; norm_num [ageColumn])).1

/-! ## The outliers component formula (C3) -/

/-- The outliers component as the specification words it: `100` minus a
penalty of `(total outlier values / total numeric values considered) × 80`,
clamped to `[0,100]`.  Stated only for comparison with the implementation,
which uses a different denominator. -/
def specOutlierComponent (total_outliers total_numeric_values : ℕ) : ℚ :=
  max 0 (min 100 (100 - ((total_outliers : ℚ) / (total_numeric_values : ℚ)) * 80))

theorem sum_map_outlier_succ (l : List NumericSummary) :
    (l.map (fun ns => ns.outlier_count + 1)).sum = (l.map (·.outlier_count)).sum + l.length := by
  induction l with
  | nil => simp
  | cons a t ih =>
    simp only [List.map_cons, List.sum_cons, List.length_cons, ih]
    omega

theorem numericValueCounts_eq (columns : List DataQualityColumn) :
    numericValueCounts columns =
      totalOutlierCount columns + (columns.filterMap (·.numeric_summary)).length := by
  unfold numericValueCounts totalOutlierCount
  exact sum_map_outlier_succ _

theorem outlierDensity_eq (columns : List DataQualityColumn) :
    outlierDensity columns =
      (totalOutlierCount columns : ℚ) /
        ((totalOutlierCount columns : ℚ) + ((columns.filterMap (·.numeric_summary)).length : ℚ)) := by
  unfold outlierDensity
  rw [numericValueCounts_eq]
  rcases Nat.eq_zero_or_pos (columns.filterMap (·.numeric_summary)).length with hk | hk
  · have hT : totalOutlierCount columns = 0 := by
      unfold totalOutlierCount
      rw [List.length_eq_zero] at hk
      simp [hk]
    rw [if_neg (by omega)]
    simp [hT]
  · rw [if_pos (by omega)]
    push_cast
    ring_nf

/-- **C3 (amended).** The outliers component actually computed: the
denominator of the density is the total outlier count plus the number of
numeric columns (each numeric column contributes `outlier_count + 1`), not
the total number of numeric values considered. -/
theorem readiness_outliers_component_formula (n_rows : ℤ) (duplicate_pct : ℚ)
    (columns : List DataQualityColumn) (h : 0 < n_rows) :
    ∃ comps, (compute_readiness_score n_rows duplicate_pct columns).components = some comps ∧
      comps.outliers = pyRound2 (max 0 (100 -
        ((totalOutlierCount columns : ℚ) /
          ((totalOutlierCount columns : ℚ) +
            ((columns.filterMap (·.numeric_summary)).length : ℚ))) * 80)) := by
  rw [compute_readiness_score, if_neg (by omega)]
  refine ⟨readinessComponentsOf duplicate_pct columns, rfl, ?_⟩
  show pyRound2 (max 0 (100 - (outlierDensity columns * 100 * (4/5)))) = _
  rw [outlierDensity_eq]
  ring_nf

/-- A concrete numeric column with one outlier among 100 non-missing
values, used to separate the implemented formula from the spec formula. -/
def oneOutlierColumn : DataQualityColumn :=
  { name := "x", pandas_dtype := "float64", n_missing := 0, missing_pct := 0,
    n_unique := 100, is_constant := false, is_all_unique := true,
    numeric_summary := some
      { mean := 50, std := some 10, min := 0, q1 := 45, median := 50, q3 := 55,
        max := 200, iqr := 10, outlier_count := 1, outliers := [200],
        outliers_truncated := false, outlier_method := "iqr" } }

/-- **C3 (counterexample).** On a 100-row dataset with a single numeric
column holding 100 values and 1 outlier, the spec formula gives
`100 - (1/100)·80 = 99.2`, but the implementation computes density
`1/(1+1) = 1/2` and returns `60`. -/
theorem readiness_outliers_spec_counterexample :
    ((compute_readiness_score 100 0 [oneOutlierColumn]).components.map (·.outliers)) = some 60 ∧
    specOutlierComponent (totalOutlierCount [oneOutlierColumn]) 100 = 496/5 ∧
    ((compute_readiness_score 100 0 [oneOutlierColumn]).components.map (·.outliers)) ≠
      some (specOutlierComponent (totalOutlierCount [oneOutlierColumn]) 100) := by
  have hd : outlierDensity [oneOutlierColumn] = 1/2 := by
    norm_num [outlierDensity, totalOutlierCount, numericValueCounts, oneOutlierColumn,
      List.filterMap_cons, List.filterMap_nil]
  have ho : ((compute_readiness_score 100 0 [oneOutlierColumn]).components.map (·.outliers)) =
      some 60 := by
    rw [compute_readiness_score, if_neg (by omega)]
    show some ((readinessComponentsOf 0 [oneOutlierColumn]).outliers) = some 60
    show some (pyRound2 (max 0 (100 - (outlierDensity [oneOutlierColumn] * 100 * (4/5))))) = _
    rw [hd]
    norm_num [pyRound2, roundHalfEvenInt, max_def]
  have hspec : specOutlierComponent (totalOutlierCount [oneOutlierColumn]) 100 = 496/5 := by
    norm_num [specOutlierComponent, totalOutlierCount, oneOutlierColumn,
      List.filterMap_cons, List.filterMap_nil, max_def, min_def]
  refine ⟨ho, hspec, ?_⟩
  rw [ho, hspec]
  intro hcon
  have : (60 : ℚ) = 496/5 := Option.some_injective _ hcon
  norm_num at this

/-- Witness for `readiness_outliers_component_formula`. -/
theorem readiness_outliers_component_formula_witness :
    (0 : ℤ) < 100 ∧
    ∃ comps, (compute_readiness_score 100 0 [oneOutlierColumn]).components = some comps ∧
      comps.outliers = pyRound2 (max 0 (100 -
        ((totalOutlierCount [oneOutlierColumn] : ℚ) /
          ((totalOutlierCount [oneOutlierColumn] : ℚ) +
            (([oneOutlierColumn].filterMap (·.numeric_summary)).length : ℚ))) * 80)) :=
  ⟨by norm_num, readiness_outliers_component_formula 100 0 [oneOutlierColumn] (by norm_num)⟩

/-! ## `_numeric_summary` (`src/tools/data_quality_tools.py:116-173`)

The column arrives as the list of its non-missing values (the caller applies
`series.dropna()`).  `np.sqrt` is an abstract parameter `sqrtQ`; pandas'
`describe` quantiles use linear interpolation over the sorted values, which
is exact rational arithmetic.  `std` is `none` when `ddof=1` leaves fewer
than two observations (pandas yields NaN there), matching the
`np.isnan(std)` guard. -/

def listMean (xs : List ℚ) : ℚ := xs.sum / (xs.length : ℚ)

def listVarSample (xs : List ℚ) : ℚ :=
  (xs.map (fun x => (x - listMean xs)^2)).sum / ((xs.length : ℚ) - 1)

/-- Linear-interpolation quantile over the sorted values, as
`pandas.Series.describe` computes the 25%/50%/75% entries. -/
def pandasQuantile (xs : List ℚ) (p : ℚ) : ℚ :=
  let s := List.insertionSort (· ≤ ·) xs
  if s.length = 0 then 0
  else
    let pos : ℚ := p * ((s.length : ℚ) - 1)
    let i : ℕ := (⌊pos⌋).toNat
    let lo := s.getD i 0
    let hi := s.getD (i + 1) lo
    lo + (hi - lo) * (pos - (⌊pos⌋ : ℚ))

def sampleStd (sqrtQ : ℚ → ℚ) (xs : List ℚ) : Option ℚ :=
  if xs.length ≥ 2 then some (sqrtQ (listVarSample xs)) else none

def iqrOutlierMask (xs : List ℚ) (outlier_method : String) (v : ℚ) : Bool :=
  if outlier_method = "iqr" ∨ outlier_method = "both" then
    let q1 := pandasQuantile xs (1/4)
    let q3 := pandasQuantile xs (3/4)
    let iqr := q3 - q1
    decide (v < q1 - (3/2) * iqr) || decide (v > q3 + (3/2) * iqr)
  else false

def zscoreOutlierMask (sqrtQ : ℚ → ℚ) (xs : List ℚ) (outlier_method : String) (v : ℚ) : Bool :=
  if outlier_method = "zscore" ∨ outlier_method = "both" then
    match sampleStd sqrtQ xs with
    | some s => if 0 < s then decide (|v - listMean xs| / s > 3) else false
    | none => false
  else false

def outlierMask (sqrtQ : ℚ → ℚ) (xs : List ℚ) (outlier_method : String) (v : ℚ) : Bool :=
  if outlier_method = "both" then
    iqrOutlierMask xs outlier_method v || zscoreOutlierMask sqrtQ xs outlier_method v
  else if outlier_method = "zscore" then zscoreOutlierMask sqrtQ xs outlier_method v
  else iqrOutlierMask xs outlier_method v

def numericSummary (sqrtQ : ℚ → ℚ) (xs : List ℚ) (outlier_method : String) : NumericSummary :=
  let outliers := xs.filter (outlierMask sqrtQ xs outlier_method)
  { mean := listMean xs
    std := sampleStd sqrtQ xs
    min := pandasQuantile xs 0
    q1 := pandasQuantile xs (1/4)
    median := pandasQuantile xs (1/2)
    q3 := pandasQuantile xs (3/4)
    max := pandasQuantile xs 1
    iqr := pandasQuantile xs (3/4) - pandasQuantile xs (1/4)
    outlier_count := outliers.length
    outliers := outliers.take 20
    outliers_truncated := outliers.length > 20
    outlier_method := outlier_method }

theorem iqrOutlierMask_both_eq_iqr (xs : List ℚ) (v : ℚ) :
    iqrOutlierMask xs "both" v = iqrOutlierMask xs "iqr" v := by
  unfold iqrOutlierMask
  rw [if_pos (by right; rfl), if_pos (by left; rfl)]

theorem zscoreOutlierMask_both_eq_zscore (sqrtQ : ℚ → ℚ) (xs : List ℚ) (v : ℚ) :
    zscoreOutlierMask sqrtQ xs "both" v = zscoreOutlierMask sqrtQ xs "zscore" v := by
  unfold zscoreOutlierMask
  rw [if_pos (by right; rfl), if_pos (by left; rfl)]

/-- **C4.** Under `outlier_method="both"` the outlier mask is the pointwise
logical OR of the IQR mask and the z-score mask, so the reported
`outlier_count` under `"both"` is at least the maximum of the counts
reported under `"iqr"` and `"zscore"` on the same data. -/
theorem outlier_mask_both_is_or (sqrtQ : ℚ → ℚ) (xs : List ℚ) :
    (∀ v, outlierMask sqrtQ xs "both" v =
      (outlierMask sqrtQ xs "iqr" v || outlierMask sqrtQ xs "zscore" v)) ∧
    max (numericSummary sqrtQ xs "iqr").outlier_count
        (numericSummary sqrtQ xs "zscore").outlier_count ≤
      (numericSummary sqrtQ xs "both").outlier_count := by
  have hmask : ∀ v, outlierMask sqrtQ xs "both" v =
      (outlierMask sqrtQ xs "iqr" v || outlierMask sqrtQ xs "zscore" v) := by
    intro v
    show (iqrOutlierMask xs "both" v || zscoreOutlierMask sqrtQ xs "both" v) = _
    rw [iqrOutlierMask_both_eq_iqr, zscoreOutlierMask_both_eq_zscore]
    have h1 : outlierMask sqrtQ xs "iqr" v = iqrOutlierMask xs "iqr" v := rfl
    have h2 : outlierMask sqrtQ xs "zscore" v = zscoreOutlierMask sqrtQ xs "zscore" v := rfl
    rw [h1, h2]
  refine ⟨hmask, ?_⟩
  have hcount : ∀ m, (numericSummary sqrtQ xs m).outlier_count =
      xs.countP (outlierMask sqrtQ xs m) := by
    intro m
    show (xs.filter (outlierMask sqrtQ xs m)).length = _
    rw [List.countP_eq_length_filter]
  rw [hcount, hcount, hcount]
  apply Nat.max_le.mpr
  constructor
  · apply List.countP_mono_left
    intro v _ hv
    rw [hmask v, hv]
    rfl
  · apply List.countP_mono_left
    intro v _ hv
    rw [hmask v, hv]
    exact Bool.or_true _

/-! ## Statistical inference (`src/tools/eda_inference_tools.py`)

External library values are abstracted into a `StatLib` record: `sqrtQ`
models `np.sqrt`, `normCdf` models `stats.norm.cdf`, `tTwoSidedP df t`
models the two-sided p-value `scipy` returns for a t statistic whose
absolute value is `t` at `df` degrees of freedom (scipy computes it as
`2·sf(|t|, df)`, a function of `df` and `|t|` only), `tPpf`/`normPpf`
model the critical-value quantiles.  `test_type` and `alternative` enter
already lowercased (the Python code applies `.lower()` before branching;
the embedding consumes the lowercased value). -/

structure StatLib where
  sqrtQ : ℚ → ℚ
  normCdf : ℚ → ℚ
  tTwoSidedP : ℚ → ℚ → ℚ
  tPpf : ℚ → ℚ → ℚ
  normPpf : ℚ → ℚ

/-- One-sided p-value derivation from the scipy two-sided p-value in the
`test_type == "t"` branches (identical in the one- and two-sample tests);
`none` models the `raise ValueError` on an unknown alternative. -/
def tBranchP (p_two t_stat : ℚ) : String → Option ℚ
  | "two-sided" => some p_two
  | "greater" => some (if 0 < t_stat then p_two / 2 else 1 - p_two / 2)
  | "less" => some (if t_stat < 0 then p_two / 2 else 1 - p_two / 2)
  | _ => none

/-- p-value in the z branches, from the standard normal CDF. -/
def zBranchP (normCdf : ℚ → ℚ) (z : ℚ) : String → Option ℚ
  | "two-sided" => some (2 * (1 - normCdf |z|))
  | "greater" => some (1 - normCdf z)
  | "less" => some (normCdf z)
  | _ => none

def decideReject (p_value alpha : ℚ) : Bool := decide (p_value ≤ alpha)

/-- `df_ab[df_ab[group_col] == g][column].dropna()`: the non-missing
column values of the rows labelled `g`. -/
def groupValues (rows : List (String × Option ℚ)) (g : String) : List ℚ :=
  rows.filterMap (fun r => if r.1 = g then r.2 else none)

/-- `df[df[group_col].isin([group_a, group_b])]` -/
def filteredRows (rows : List (String × Option ℚ)) (a b : String) :
    List (String × Option ℚ) :=
  rows.filter (fun r => r.1 = a ∨ r.1 = b)

def groupA (rows : List (String × Option ℚ)) (a b : String) : List ℚ :=
  groupValues (filteredRows rows a b) a

def groupB (rows : List (String × Option ℚ)) (a b : String) : List ℚ :=
  groupValues (filteredRows rows a b) b

def stdOf (lib : StatLib) (xs : List ℚ) : ℚ := lib.sqrtQ (listVarSample xs)

def seDiffOf (lib : StatLib) (x y : List ℚ) : ℚ :=
  lib.sqrtQ ((stdOf lib x)^2 / (x.length : ℚ) + (stdOf lib y)^2 / (y.length : ℚ))

/-- Welch statistic `scipy.stats.ttest_ind(x, y, equal_var=False)` returns:
`(mean x − mean y) / sqrt(var x / n_x + var y / n_y)`. -/
def tStatOf (lib : StatLib) (x y : List ℚ) : ℚ :=
  (listMean x - listMean y) / seDiffOf lib x y

/-- `std_a**2 / n_a`, the squared standard error contribution of one group. -/
def seSqOf (lib : StatLib) (xs : List ℚ) : ℚ := (stdOf lib xs)^2 / (xs.length : ℚ)

/-- Welch–Satterthwaite degrees of freedom, with the code's fallback to
`n_a + n_b - 2` when the denominator is not positive. -/
def welchDfOf (lib : StatLib) (x y : List ℚ) : ℚ :=
  if 0 < (seSqOf lib x)^2 / ((x.length : ℚ) - 1) + (seSqOf lib y)^2 / ((y.length : ℚ) - 1) then
    (seSqOf lib x + seSqOf lib y)^2 /
      ((seSqOf lib x)^2 / ((x.length : ℚ) - 1) + (seSqOf lib y)^2 / ((y.length : ℚ) - 1))
  else (x.length : ℚ) + (y.length : ℚ) - 2

def pooledSdOf (lib : StatLib) (x y : List ℚ) : ℚ :=
  lib.sqrtQ (((((x.length : ℚ) - 1) * (stdOf lib x)^2) + (((y.length : ℚ) - 1) * (stdOf lib y)^2)) /
    ((x.length : ℚ) + (y.length : ℚ) - 2))

/-- Cohen's d; `none` models the `np.nan` returned when the pooled sd is
not positive. -/
def cohenDOf (lib : StatLib) (x y : List ℚ) : Option ℚ :=
  if 0 < pooledSdOf lib x y then some ((listMean x - listMean y) / pooledSdOf lib x y) else none

structure TwoSampleResult where
  test_type : String
  n_a : ℕ
  n_b : ℕ
  mean_a : ℚ
  mean_b : ℚ
  std_a : ℚ
  std_b : ℚ
  mean_diff : ℚ
  statistic : ℚ
  df : Option ℚ
  standard_error_diff : ℚ
  p_value : ℚ
  alpha : ℚ
  reject_null : Bool
  confidence_interval : ℚ × ℚ
  effect_size : Option ℚ
  alternative : String
deriving DecidableEq

def runTwoSampleTest (lib : StatLib) (rows : List (String × Option ℚ))
    (group_a group_b : String) (test_type alternative : String) (alpha : ℚ) :
    Except String TwoSampleResult :=
  let x := groupA rows group_a group_b
  let y := groupB rows group_a group_b
  if x.length = 0 ∨ y.length = 0 then .error "One or both groups have no data"
  else if test_type = "t" then
    match tBranchP (lib.tTwoSidedP (welchDfOf lib x y) |tStatOf lib x y|)
        (tStatOf lib x y) alternative with
    | none => .error "alternative must be two-sided, less, or greater"
    | some p_val =>
      .ok { test_type := "two_sample_t"
            n_a := x.length, n_b := y.length
            mean_a := listMean x, mean_b := listMean y
            std_a := stdOf lib x, std_b := stdOf lib y
            mean_diff := listMean x - listMean y
            statistic := tStatOf lib x y
            df := some (welchDfOf lib x y)
            standard_error_diff := seDiffOf lib x y
            p_value := p_val
            alpha := alpha
            reject_null := decideReject p_val alpha
            confidence_interval :=
              (listMean x - listMean y - lib.tPpf (1 - alpha/2) (welchDfOf lib x y) * seDiffOf lib x y,
               listMean x - listMean y + lib.tPpf (1 - alpha/2) (welchDfOf lib x y) * seDiffOf lib x y)
            effect_size := cohenDOf lib x y
            alternative := alternative }
  else if test_type = "z" then
    match zBranchP lib.normCdf (tStatOf lib x y) alternative with
    | none => .error "alternative must be two-sided, less, or greater"
    | some p_val =>
      .ok { test_type := "two_sample_z"
            n_a := x.length, n_b := y.length
            mean_a := listMean x, mean_b := listMean y
            std_a := stdOf lib x, std_b := stdOf lib y
            mean_diff := listMean x - listMean y
            statistic := tStatOf lib x y
            df := none
            standard_error_diff := seDiffOf lib x y
            p_value := p_val
            alpha := alpha
            reject_null := decideReject p_val alpha
            confidence_interval :=
              (listMean x - listMean y - lib.normPpf (1 - alpha/2) * seDiffOf lib x y,
               listMean x - listMean y + lib.normPpf (1 - alpha/2) * seDiffOf lib x y)
            effect_size := cohenDOf lib x y
            alternative := alternative }
  else .error "test_type must be t or z"

theorem seDiffOf_comm (lib : StatLib) (x y : List ℚ) :
    seDiffOf lib y x = seDiffOf lib x y := by
  unfold seDiffOf
  rw [add_comm]

theorem tStatOf_swap (lib : StatLib) (x y : List ℚ) :
    tStatOf lib y x = -(tStatOf lib x y) := by
  unfold tStatOf
  rw [seDiffOf_comm, ← neg_div, neg_sub]

theorem welchDfOf_comm (lib : StatLib) (x y : List ℚ) :
    welchDfOf lib y x = welchDfOf lib x y := by
  unfold welchDfOf
  exact if_congr ⟨fun h => by linarith, fun h => by linarith⟩ (by ring) (by ring)

theorem filteredRows_comm (rows : List (String × Option ℚ)) (a b : String) :
    filteredRows rows b a = filteredRows rows a b := by
  unfold filteredRows
  apply List.filter_congr
  intro r _
  simp [or_comm]

theorem groupA_swap (rows : List (String × Option ℚ)) (a b : String) :
    groupA rows b a = groupB rows a b := by
  unfold groupA groupB
  rw [filteredRows_comm]

theorem groupB_swap (rows : List (String × Option ℚ)) (a b : String) :
    groupB rows b a = groupA rows a b := by
  unfold groupA groupB
  rw [filteredRows_comm]

theorem tBranchP_greater_neg (p t : ℚ) :
    tBranchP p (-t) "greater" = tBranchP p t "less" := by
  show some (if 0 < -t then p / 2 else 1 - p / 2) = some (if t < 0 then p / 2 else 1 - p / 2)
  exact congrArg some (if_congr neg_pos (by rfl) (by rfl))

theorem tBranchP_less_neg (p t : ℚ) :
    tBranchP p (-t) "less" = tBranchP p t "greater" := by
  show some (if -t < 0 then p / 2 else 1 - p / 2) = some (if 0 < t then p / 2 else 1 - p / 2)
  exact congrArg some (if_congr neg_lt_zero (by rfl) (by rfl))

theorem zBranchP_greater_neg (Phi : ℚ → ℚ) (hPhi : ∀ q, Phi (-q) = 1 - Phi q) (z : ℚ) :
    zBranchP Phi (-z) "greater" = zBranchP Phi z "less" := by
  show some (1 - Phi (-z)) = some (Phi z)
  rw [hPhi z]
  ring_nf

theorem zBranchP_less_neg (Phi : ℚ → ℚ) (hPhi : ∀ q, Phi (-q) = 1 - Phi q) (z : ℚ) :
    zBranchP Phi (-z) "less" = zBranchP Phi z "greater" := by
  show some (Phi (-z)) = some (1 - Phi z)
  rw [hPhi z]

theorem zBranchP_two_sided_neg (Phi : ℚ → ℚ) (z : ℚ) :
    zBranchP Phi (-z) "two-sided" = zBranchP Phi z "two-sided" := by
  show some (2 * (1 - Phi |(-z)|)) = some (2 * (1 - Phi |z|))
  rw [abs_neg]

/-- One-sided p-values from the t branch sum to 1, using that the scipy
two-sided p-value at a zero statistic is exactly 1. -/
theorem oneSided_sum (p t : ℚ) (hp : t = 0 → p = 1) :
    (if 0 < t then p / 2 else 1 - p / 2) + (if t < 0 then p / 2 else 1 - p / 2) = 1 := by
  rcases lt_trichotomy t 0 with h | h | h
  · rw [if_neg (by linarith), if_pos h]
    ring
  · rw [if_neg (by rw [h]; exact lt_irrefl 0), if_neg (by rw [h]; exact lt_irrefl 0), hp h]
    norm_num
  · rw [if_pos h, if_neg (by linarith)]
    ring

theorem tBranchP_two_sided (p t : ℚ) : tBranchP p t "two-sided" = some p := rfl

theorem tBranchP_greater_eq (p t : ℚ) :
    tBranchP p t "greater" = some (if 0 < t then p / 2 else 1 - p / 2) := rfl

theorem tBranchP_less_eq (p t : ℚ) :
    tBranchP p t "less" = some (if t < 0 then p / 2 else 1 - p / 2) := rfl

theorem zBranchP_two_sided (Phi : ℚ → ℚ) (z : ℚ) :
    zBranchP Phi z "two-sided" = some (2 * (1 - Phi |z|)) := rfl

theorem zBranchP_greater_eq (Phi : ℚ → ℚ) (z : ℚ) :
    zBranchP Phi z "greater" = some (1 - Phi z) := rfl

theorem zBranchP_less_eq (Phi : ℚ → ℚ) (z : ℚ) :
    zBranchP Phi z "less" = some (Phi z) := rfl

/-- **C5.** Swapping `group_a` and `group_b` negates `mean_diff` and the
statistic, swaps the p-values produced under `alternative="greater"` and
`"less"`, and leaves the two-sided p-value unchanged — for both the t and
the z test type.  `hPhi` is the point symmetry of the standard normal CDF,
the only property of the external `scipy` functions the result needs. -/
theorem two_sample_swap_symmetry (lib : StatLib) (rows : List (String × Option ℚ))
    (a b tt : String) (alpha : ℚ)
    (hPhi : ∀ q, lib.normCdf (-q) = 1 - lib.normCdf q)
    (hx : (groupA rows a b).length ≠ 0) (hy : (groupB rows a b).length ≠ 0)
    (htt : tt = "t" ∨ tt = "z") :
    ∃ ra2 rb2 rag ral rbg rbl,
      runTwoSampleTest lib rows a b tt "two-sided" alpha = .ok ra2 ∧
      runTwoSampleTest lib rows b a tt "two-sided" alpha = .ok rb2 ∧
      runTwoSampleTest lib rows a b tt "greater" alpha = .ok rag ∧
      runTwoSampleTest lib rows a b tt "less" alpha = .ok ral ∧
      runTwoSampleTest lib rows b a tt "greater" alpha = .ok rbg ∧
      runTwoSampleTest lib rows b a tt "less" alpha = .ok rbl ∧
      rb2.mean_diff = -ra2.mean_diff ∧
      rb2.statistic = -ra2.statistic ∧
      rb2.p_value = ra2.p_value ∧
      rbg.p_value = ral.p_value ∧
      rbl.p_value = rag.p_value := by
  have hga := groupA_swap rows a b
  have hgb := groupB_swap rows a b
  have hne1 : ¬((groupA rows a b).length = 0 ∨ (groupB rows a b).length = 0) := by
    simp [hx, hy]
  have hne2 : ¬((groupB rows a b).length = 0 ∨ (groupA rows a b).length = 0) := by
    simp [hx, hy]
  rcases htt with htt | htt <;> subst htt
  · simp only [runTwoSampleTest, hga, hgb, if_neg hne1, if_neg hne2, if_pos rfl,
      tBranchP_two_sided, tBranchP_greater_eq, tBranchP_less_eq]
    refine ⟨_, _, _, _, _, _, rfl, rfl, rfl, rfl, rfl, rfl, ?_, ?_, ?_, ?_, ?_⟩
    · show listMean (groupB rows a b) - listMean (groupA rows a b) = -_
      ring
    · exact tStatOf_swap lib (groupA rows a b) (groupB rows a b)
    · show lib.tTwoSidedP (welchDfOf lib (groupB rows a b) (groupA rows a b))
          |tStatOf lib (groupB rows a b) (groupA rows a b)| = _
      rw [welchDfOf_comm, tStatOf_swap, abs_neg]
    · show (if 0 < tStatOf lib (groupB rows a b) (groupA rows a b) then _ else _) = _
      rw [welchDfOf_comm, tStatOf_swap, abs_neg]
      exact if_congr neg_pos rfl rfl
    · show (if tStatOf lib (groupB rows a b) (groupA rows a b) < 0 then _ else _) = _
      rw [welchDfOf_comm, tStatOf_swap, abs_neg]
      exact if_congr neg_lt_zero rfl rfl
  · simp only [runTwoSampleTest, hga, hgb, if_neg hne1, if_neg hne2,
      if_neg (by decide : ¬("z" = "t")), if_pos rfl,
      zBranchP_two_sided, zBranchP_greater_eq, zBranchP_less_eq]
    refine ⟨_, _, _, _, _, _, rfl, rfl, rfl, rfl, rfl, rfl, ?_, ?_, ?_, ?_, ?_⟩
    · show listMean (groupB rows a b) - listMean (groupA rows a b) = -_
      ring
    · exact tStatOf_swap lib (groupA rows a b) (groupB rows a b)
    · show 2 * (1 - lib.normCdf |tStatOf lib (groupB rows a b) (groupA rows a b)|) = _
      rw [tStatOf_swap, abs_neg]
    · show 1 - lib.normCdf (tStatOf lib (groupB rows a b) (groupA rows a b)) = _
      rw [tStatOf_swap, hPhi]
      ring
    · show lib.normCdf (tStatOf lib (groupB rows a b) (groupA rows a b)) = _
      rw [tStatOf_swap, hPhi]

/-- Concrete stand-ins for the external library functions, used by the
witnesses. -/
def witLib : StatLib :=
  { sqrtQ := fun q => q, normCdf := fun _ => 1/2, tTwoSidedP := fun _ _ => 1,
    tPpf := fun _ _ => 2, normPpf := fun _ => 2 }

def witRows : List (String × Option ℚ) :=
  [("a", some 1), ("a", some 3), ("b", some 4), ("b", none)]

/-- Witness for `two_sample_swap_symmetry` at a concrete dataset. -/
theorem two_sample_swap_symmetry_witness :
    (groupA witRows "a" "b").length ≠ 0 ∧ (groupB witRows "a" "b").length ≠ 0 ∧
    ∃ ra2 rb2 rag ral rbg rbl,
      runTwoSampleTest witLib witRows "a" "b" "t" "two-sided" (1/20) = .ok ra2 ∧
      runTwoSampleTest witLib witRows "b" "a" "t" "two-sided" (1/20) = .ok rb2 ∧
      runTwoSampleTest witLib witRows "a" "b" "t" "greater" (1/20) = .ok rag ∧
      runTwoSampleTest witLib witRows "a" "b" "t" "less" (1/20) = .ok ral ∧
      runTwoSampleTest witLib witRows "b" "a" "t" "greater" (1/20) = .ok rbg ∧
      runTwoSampleTest witLib witRows "b" "a" "t" "less" (1/20) = .ok rbl ∧
      rb2.mean_diff = -ra2.mean_diff ∧
      rb2.statistic = -ra2.statistic ∧
      rb2.p_value = ra2.p_value ∧
      rbg.p_value = ral.p_value ∧
      rbl.p_value = rag.p_value :=
  ⟨by decide, by decide,
   two_sample_swap_symmetry witLib witRows "a" "b" "t" (1/20)
     (by intro q; norm_num [witLib]) (by decide) (by decide) (Or.inl rfl)⟩

/-! ## One-sample test (`src/tools/eda_inference_tools.py:27-160`) -/

structure OneSampleResult where
  test_type : String
  n : ℕ
  sample_mean : ℚ
  sample_std : ℚ
  hypothesized_mean : ℚ
  statistic : ℚ
  df : Option ℤ
  standard_error : ℚ
  p_value : ℚ
  alpha : ℚ
  reject_null : Bool
  confidence_interval : ℚ × ℚ
  alternative : String
deriving DecidableEq

/-- `se = sample_std / np.sqrt(n)` -/
def oneSampleSe (lib : StatLib) (xs : List ℚ) : ℚ :=
  stdOf lib xs / lib.sqrtQ ((xs.length : ℚ))

/-- `scipy.stats.ttest_1samp` statistic `(mean − mu) / se`; the z branch
computes the same expression explicitly. -/
def oneSampleStat (lib : StatLib) (xs : List ℚ) (mu : ℚ) : ℚ :=
  (listMean xs - mu) / oneSampleSe lib xs

def runOneSampleTest (lib : StatLib) (column : List (Option ℚ)) (mu : ℚ)
    (test_type alternative : String) (alpha : ℚ) : Except String OneSampleResult :=
  let x := column.filterMap id
  if test_type = "t" then
    match tBranchP (lib.tTwoSidedP ((x.length : ℚ) - 1) |oneSampleStat lib x mu|)
        (oneSampleStat lib x mu) alternative with
    | none => .error "alternative must be two-sided, less, or greater"
    | some p_val =>
      .ok { test_type := "one_sample_t"
            n := x.length
            sample_mean := listMean x
            sample_std := stdOf lib x
            hypothesized_mean := mu
            statistic := oneSampleStat lib x mu
            df := some ((x.length : ℤ) - 1)
            standard_error := oneSampleSe lib x
            p_value := p_val
            alpha := alpha
            reject_null := decideReject p_val alpha
            confidence_interval :=
              (listMean x - lib.tPpf (1 - alpha/2) ((x.length : ℚ) - 1) * oneSampleSe lib x,
               listMean x + lib.tPpf (1 - alpha/2) ((x.length : ℚ) - 1) * oneSampleSe lib x)
            alternative := alternative }
  else if test_type = "z" then
    match zBranchP lib.normCdf (oneSampleStat lib x mu) alternative with
    | none => .error "alternative must be two-sided, less, or greater"
    | some p_val =>
      .ok { test_type := "one_sample_z"
            n := x.length
            sample_mean := listMean x
            sample_std := stdOf lib x
            hypothesized_mean := mu
            statistic := oneSampleStat lib x mu
            df := none
            standard_error := oneSampleSe lib x
            p_value := p_val
            alpha := alpha
            reject_null := decideReject p_val alpha
            confidence_interval :=
              (listMean x - lib.normPpf (1 - alpha/2) * oneSampleSe lib x,
               listMean x + lib.normPpf (1 - alpha/2) * oneSampleSe lib x)
            alternative := alternative }
  else .error "test_type must be t or z"

/-- **C10.** For the one- and two-sample tests on fixed data, the p-value
under `alternative="greater"` and the p-value under `alternative="less"`
sum to exactly 1.  For the t branches this uses that the scipy two-sided
p-value at a zero statistic is exactly 1 (`hp0`); the z branches need no
assumption beyond the code. -/
theorem one_sided_p_values_sum_to_one (lib : StatLib) (column : List (Option ℚ)) (mu : ℚ)
    (rows : List (String × Option ℚ)) (a b tt : String) (alpha : ℚ)
    (hp0 : ∀ d : ℚ, lib.tTwoSidedP d 0 = 1)
    (htt : tt = "t" ∨ tt = "z")
    (hx : (groupA rows a b).length ≠ 0) (hy : (groupB rows a b).length ≠ 0) :
    (∃ rg rl, runOneSampleTest lib column mu tt "greater" alpha = .ok rg ∧
      runOneSampleTest lib column mu tt "less" alpha = .ok rl ∧
      rg.p_value + rl.p_value = 1) ∧
    (∃ sg sl, runTwoSampleTest lib rows a b tt "greater" alpha = .ok sg ∧
      runTwoSampleTest lib rows a b tt "less" alpha = .ok sl ∧
      sg.p_value + sl.p_value = 1) := by
  have hne1 : ¬((groupA rows a b).length = 0 ∨ (groupB rows a b).length = 0) := by
    simp [hx, hy]
  rcases htt with htt | htt <;> subst htt
  · constructor
    · simp only [runOneSampleTest, if_pos rfl, tBranchP_greater_eq, tBranchP_less_eq]
      refine ⟨_, _, rfl, rfl, ?_⟩
      apply oneSided_sum
      intro ht
      rw [ht, abs_zero, hp0]
    · simp only [runTwoSampleTest, if_neg hne1, if_pos rfl, tBranchP_greater_eq,
        tBranchP_less_eq]
      refine ⟨_, _, rfl, rfl, ?_⟩
      apply oneSided_sum
      intro ht
      rw [ht, abs_zero, hp0]
  · constructor
    · simp only [runOneSampleTest, if_neg (by decide : ¬("z" = "t")), if_pos rfl,
        zBranchP_greater_eq, zBranchP_less_eq]
      refine ⟨_, _, rfl, rfl, ?_⟩
      ring
    · simp only [runTwoSampleTest, if_neg hne1, if_neg (by decide : ¬("z" = "t")), if_pos rfl,
        zBranchP_greater_eq, zBranchP_less_eq]
      refine ⟨_, _, rfl, rfl, ?_⟩
      ring

/-- Witness for `one_sided_p_values_sum_to_one` at concrete data. -/
theorem one_sided_p_values_sum_to_one_witness :
    (groupA witRows "a" "b").length ≠ 0 ∧ (groupB witRows "a" "b").length ≠ 0 ∧
    ((∃ rg rl, runOneSampleTest witLib [some 1, some 2, none] 0 "t" "greater" (1/20) = .ok rg ∧
      runOneSampleTest witLib [some 1, some 2, none] 0 "t" "less" (1/20) = .ok rl ∧
      rg.p_value + rl.p_value = 1) ∧
    (∃ sg sl, runTwoSampleTest witLib witRows "a" "b" "t" "greater" (1/20) = .ok sg ∧
      runTwoSampleTest witLib witRows "a" "b" "t" "less" (1/20) = .ok sl ∧
      sg.p_value + sl.p_value = 1)) :=
  ⟨by decide, by decide,
   one_sided_p_values_sum_to_one witLib [some 1, some 2, none] 0 witRows "a" "b" "t" (1/20)
     (by intro d; norm_num [witLib]) (Or.inl rfl) (by decide) (by decide)⟩

/-! ## Dataset registry (`src/utils/data_store.py`, `src/utils/persistent_store.py`)

The module-level dict `_DATASETS`, the parquet files and the sqlite
dataset records become explicit components of a `Store` state.  Dataset
handles `ds_<uuid4>` become the naturals issued by a fresh-id counter
(`wf` captures that every issued handle is below the counter, the
uniqueness that uuid4 provides).  `persistFails` models the environment in
which `store.save_dataset` raises. -/

structure DF where
  columns : List String
  rows : List (List (Option ℚ))
deriving DecidableEq

/-- Association-list lookup mirroring Python dict access. -/
def alookup {κ α : Type} [DecidableEq κ] (k : κ) : List (κ × α) → Option α
  | [] => none
  | (k', v) :: t => if k = k' then some v else alookup k t

/-- `dict.pop(key, None)` -/
def aremove {κ α : Type} [DecidableEq κ] (k : κ) (l : List (κ × α)) : List (κ × α) :=
  l.filter (fun p => p.1 ≠ k)

theorem alookup_eq_some_mem {κ α : Type} [DecidableEq κ] {k : κ} {v : α} :
    ∀ {l : List (κ × α)}, alookup k l = some v → (k, v) ∈ l := by
  intro l
  induction l with
  | nil => intro h; cases h
  | cons p t ih =>
    obtain ⟨k', v'⟩ := p
    intro h
    unfold alookup at h
    by_cases hk : k = k'
    · rw [if_pos hk] at h
      subst hk
      injection h with h'
      subst h'
      exact List.mem_cons_self _ _
    · rw [if_neg hk] at h
      exact List.mem_cons_of_mem _ (ih h)

theorem alookup_cons_ne {κ α : Type} [DecidableEq κ] {k k' : κ} (v : α) (l : List (κ × α))
    (h : k ≠ k') : alookup k ((k', v) :: l) = alookup k l := by
  show (if k = k' then some v else alookup k l) = alookup k l
  rw [if_neg h]

structure Store where
  mem : List (ℕ × DF)
  persisted : List (ℕ × DF)
  meta : List (ℕ × Option ℕ)
  persistFails : Bool
  nextId : ℕ
deriving DecidableEq

def Store.wf (s : Store) : Prop :=
  (∀ p ∈ s.mem, p.1 < s.nextId) ∧ (∀ p ∈ s.persisted, p.1 < s.nextId)

/-- `register_dataset` (`data_store.py:12-48`): store in `_DATASETS`, then
attempt the durable write; a raising `save_dataset` is swallowed by
`except Exception: pass`, so only the handle is ever returned. -/
def registerDataset (df : DF) (parent : Option ℕ) (s : Store) : ℕ × Store :=
  (s.nextId,
   { mem := (s.nextId, df) :: s.mem
     persisted := if s.persistFails then s.persisted else (s.nextId, df) :: s.persisted
     meta := if s.persistFails then s.meta else (s.nextId, parent) :: s.meta
     persistFails := s.persistFails
     nextId := s.nextId + 1 })

/-- `get_dataset` (`data_store.py:51-78`): in-memory first, then lazy
hydration from durable storage into the cache; `none` models the
`KeyError`. -/
def getDataset (s : Store) (id : ℕ) : Option (DF × Store) :=
  match alookup id s.mem with
  | some df => some (df, s)
  | none =>
    match alookup id s.persisted with
    | some df => some (df, { s with mem := (id, df) :: s.mem })
    | none => none

/-- The payload an external caller can resolve for a handle (memory first,
then durable storage), ignoring the hydration side effect. -/
def viewStore (s : Store) (id : ℕ) : Option DF :=
  match alookup id s.mem with
  | some df => some df
  | none => alookup id s.persisted

theorem getDataset_spec {s : Store} {id : ℕ} {df : DF} {s' : Store}
    (h : getDataset s id = some (df, s')) :
    s'.nextId = s.nextId ∧ s'.persisted = s.persisted ∧ s'.meta = s.meta ∧
    s'.persistFails = s.persistFails ∧
    (∀ d, viewStore s' d = viewStore s d) ∧
    viewStore s id = some df ∧
    (s.wf → s'.wf ∧ id < s.nextId) := by
  unfold getDataset at h
  cases hm : alookup id s.mem with
  | some df0 =>
    rw [hm] at h
    rw [Option.some.injEq, Prod.mk.injEq] at h
    obtain ⟨rfl, rfl⟩ := h
    refine ⟨rfl, rfl, rfl, rfl, fun d => rfl, ?_, ?_⟩
    · unfold viewStore
      rw [hm]
    · intro hwf
      exact ⟨hwf, hwf.1 _ (alookup_eq_some_mem hm)⟩
  | none =>
    rw [hm] at h
    cases hp : alookup id s.persisted with
    | none =>
      rw [hp] at h
      cases h
    | some df0 =>
      rw [hp] at h
      rw [Option.some.injEq, Prod.mk.injEq] at h
      obtain ⟨rfl, rfl⟩ := h
      refine ⟨rfl, rfl, rfl, rfl, ?_, ?_, ?_⟩
      · intro d
        by_cases hd : d = id
        · subst hd
          unfold viewStore
          show (match alookup d ((d, df0) :: s.mem) with
            | some df1 => some df1 | none => alookup d s.persisted) = _
          rw [show alookup d ((d, df0) :: s.mem) = some df0 from if_pos rfl]
          rw [hm, hp]
        · unfold viewStore
          show (match alookup d ((id, df0) :: s.mem) with
            | some df1 => some df1 | none => alookup d s.persisted) = _
          rw [alookup_cons_ne _ _ hd]
      · unfold viewStore
        rw [hm, hp]
      · intro hwf
        have hid : id < s.nextId := hwf.2 _ (alookup_eq_some_mem hp)
        refine ⟨⟨?_, hwf.2⟩, hid⟩
        intro p hp'
        rcases List.mem_cons.mp hp' with h0 | h0
        · subst h0
          exact hid
        · exact hwf.1 _ h0

theorem registerDataset_spec (df : DF) (parent : Option ℕ) (s : Store) :
    (registerDataset df parent s).1 = s.nextId ∧
    (registerDataset df parent s).2.nextId = s.nextId + 1 ∧
    viewStore (registerDataset df parent s).2 s.nextId = some df ∧
    (∀ d, d ≠ s.nextId → viewStore (registerDataset df parent s).2 d = viewStore s d) ∧
    (s.wf → (registerDataset df parent s).2.wf) := by
  refine ⟨rfl, rfl, ?_, ?_, ?_⟩
  · unfold viewStore registerDataset
    show (match alookup s.nextId ((s.nextId, df) :: s.mem) with
      | some df1 => some df1
      | none => alookup s.nextId (if s.persistFails then s.persisted else (s.nextId, df) :: s.persisted)) = _
    rw [show alookup s.nextId ((s.nextId, df) :: s.mem) = some df from if_pos rfl]
  · intro d hd
    unfold viewStore registerDataset
    show (match alookup d ((s.nextId, df) :: s.mem) with
      | some df1 => some df1
      | none => alookup d (if s.persistFails then s.persisted else (s.nextId, df) :: s.persisted)) = _
    rw [alookup_cons_ne _ _ hd]
    cases hpf : s.persistFails with
    | true => rw [if_pos rfl]
    | false =>
      rw [if_neg (by simp)]
      rw [alookup_cons_ne _ _ hd]
  · intro hwf
    constructor
    · intro p hp
      rcases List.mem_cons.mp hp with h0 | h0
      · subst h0
        exact Nat.lt_succ_self _
      · exact Nat.lt_succ_of_lt (hwf.1 _ h0)
    · intro p hp
      show p.1 < s.nextId + 1
      by_cases hpf : s.persistFails
      · rw [show (registerDataset df parent s).2.persisted = s.persisted by
          unfold registerDataset; simp [hpf]] at hp
        exact Nat.lt_succ_of_lt (hwf.2 _ hp)
      · rw [show (registerDataset df parent s).2.persisted = (s.nextId, df) :: s.persisted by
          unfold registerDataset; simp [hpf]] at hp
        rcases List.mem_cons.mp hp with h0 | h0
        · subst h0
          exact Nat.lt_succ_self _
        · exact Nat.lt_succ_of_lt (hwf.2 _ h0)

/-! ## Wrangle operations (`src/tools/wrangle_tools.py`)

Each tool wrapper is embedded together with its helper: a raised
`ValueError` plus the wrapper's `except` clause become an `Except.error`
carrying the error kind of the returned envelope.  The pandas expression
engines (`df.query`, `df.eval`) are abstract parameters returning `none`
for a malformed expression or a bad column reference. -/

inductive ErrKind where
  | dataset_not_found
  | column_not_found
  | expression_error
  | invalid_parameter
  | type_error
deriving DecidableEq

structure FilterResult where
  original_dataset_id : ℕ
  new_dataset_id : ℕ
  condition : String
  n_rows_before : ℕ
  n_rows_after : ℕ
  n_columns : ℕ
deriving DecidableEq

structure SelectResult where
  original_dataset_id : ℕ
  new_dataset_id : ℕ
  selected_columns : List String
  n_rows : ℕ
  n_columns_before : ℕ
  n_columns_after : ℕ
deriving DecidableEq

structure MutateResult where
  original_dataset_id : ℕ
  new_dataset_id : ℕ
  n_rows : ℕ
  n_columns_before : ℕ
  n_columns_after : ℕ
  new_columns_created : List String
deriving DecidableEq

structure RemoveOutliersResult where
  message : String
  original_dataset_id : ℕ
  new_dataset_id : ℕ
  n_rows_before : ℕ
  n_rows_after : ℕ
  columns_processed : List String
deriving DecidableEq

/-- Keep the rows whose mask entry is `True` (`df.query` returns exactly
the rows satisfying the predicate). -/
def applyMask (df : DF) (mask : List Bool) : DF :=
  { columns := df.columns
    rows := ((df.rows.zip mask).filter (fun p => p.2)).map (fun p => p.1) }

def selectDF (df : DF) (cols : List String) : DF :=
  { columns := cols
    rows := df.rows.map (fun row => cols.map (fun c =>
      match df.columns.indexOf? c with
      | some i => row.getD i none
      | none => none)) }

/-- `modified[col_name] = modified.eval(expr)`: overwrite an existing
column in place or append a new one. -/
def setColumn (df : DF) (name : String) (vals : List (Option ℚ)) : DF :=
  match df.columns.indexOf? name with
  | some i => { columns := df.columns
                rows := (df.rows.zip vals).map (fun p => p.1.set i p.2) }
  | none => { columns := df.columns ++ [name]
              rows := (df.rows.zip vals).map (fun p => p.1 ++ [p.2]) }

/-- `wrangle_filter_rows_tool` = `apply_row_filter` plus its wrapper.
`queryEval df cond` models `df.query(normalized cond)` (regex
normalization included): `none` is the raising case. -/
def wrangleFilterRowsTool (queryEval : DF → String → Option (List Bool))
    (dataset_id : ℕ) (condition : String) (s : Store) :
    Except ErrKind FilterResult × Store :=
  match getDataset s dataset_id with
  | none => (.error .dataset_not_found, s)
  | some (df, s1) =>
    match queryEval df condition with
    | none => (.error .expression_error, s1)
    | some mask =>
      let filtered := applyMask df mask
      let reg := registerDataset filtered (some dataset_id) s1
      (.ok { original_dataset_id := dataset_id
             new_dataset_id := reg.1
             condition := condition
             n_rows_before := df.rows.length
             n_rows_after := filtered.rows.length
             n_columns := df.columns.length }, reg.2)

/-- `wrangle_select_columns_tool` = `select_columns` plus its wrapper:
any missing requested column raises before anything is registered. -/
def wrangleSelectColumnsTool (dataset_id : ℕ) (columns : List String) (s : Store) :
    Except ErrKind SelectResult × Store :=
  match getDataset s dataset_id with
  | none => (.error .dataset_not_found, s)
  | some (df, s1) =>
    if (columns.filter (fun c => ¬(c ∈ df.columns))) ≠ [] then
      (.error .column_not_found, s1)
    else
      let selected := selectDF df columns
      let reg := registerDataset selected (some dataset_id) s1
      (.ok { original_dataset_id := dataset_id
             new_dataset_id := reg.1
             selected_columns := columns
             n_rows := selected.rows.length
             n_columns_before := df.columns.length
             n_columns_after := selected.columns.length }, reg.2)

/-- The expression loop of `mutate_columns`: each expression is evaluated
against the dataframe mutated so far; the first failure aborts the whole
operation.  Also accumulates which result names were newly created
relative to the column set before the loop. -/
def mutateLoop (exprEval : DF → String → Option (List (Option ℚ)))
    (existing : List String) :
    DF → List String → List (String × String) → Except ErrKind (DF × List String)
  | modified, acc, [] => .ok (modified, acc.reverse)
  | modified, acc, (name, expr) :: rest =>
    match exprEval modified expr with
    | none => .error .expression_error
    | some vals =>
      mutateLoop exprEval existing (setColumn modified name vals)
        (if name ∈ existing then acc else name :: acc) rest

/-- `wrangle_mutate_columns_tool` = `mutate_columns` plus its wrapper.
`exprEval df expr` models `df.eval(expr)`. -/
def wrangleMutateColumnsTool (exprEval : DF → String → Option (List (Option ℚ)))
    (dataset_id : ℕ) (expressions : List (String × String)) (s : Store) :
    Except ErrKind MutateResult × Store :=
  match getDataset s dataset_id with
  | none => (.error .dataset_not_found, s)
  | some (df, s1) =>
    match mutateLoop exprEval df.columns df [] expressions with
    | .error e => (.error e, s1)
    | .ok (modified, new_cols) =>
      let reg := registerDataset modified (some dataset_id) s1
      (.ok { original_dataset_id := dataset_id
             new_dataset_id := reg.1
             n_rows := modified.rows.length
             n_columns_before := df.columns.length
             n_columns_after := modified.columns.length
             new_columns_created := new_cols }, reg.2)

structure OutlierColInfo where
  column_name : Option String
  lower_bound : Option ℚ
  upper_bound : Option ℚ
  outlier_count : ℕ
deriving DecidableEq

/-- The columns whose bounds produce a filter condition: a present name
that exists in the dataframe with at least one bound. -/
def outlierConds (df : DF) (cwo : List OutlierColInfo) :
    List (String × Option ℚ × Option ℚ) :=
  cwo.filterMap (fun c =>
    match c.column_name with
    | some n =>
      if n ∈ df.columns ∧ (c.lower_bound.isSome ∨ c.upper_bound.isSome) then
        some (n, c.lower_bound, c.upper_bound)
      else none
    | none => none)

/-- The `removal_details` f-string formats both bounds with `:.4g` for
every column that contributed a condition; with exactly one bound present
that formatting raises `TypeError` (uncaught in the tool). -/
def outlierFormatCrash (df : DF) (cwo : List OutlierColInfo) : Bool :=
  cwo.any (fun c =>
    match c.column_name with
    | some n =>
      decide (n ∈ df.columns) &&
        ((c.lower_bound.isSome && !c.upper_bound.isSome) ||
         (!c.lower_bound.isSome && c.upper_bound.isSome))
    | none => false)

/-- Row predicate for the combined AND filter `col >= lb and col <= ub`
over all processed columns; a missing cell fails every comparison
(pandas query drops NaN rows). -/
def rowInBounds (df : DF) (conds : List (String × Option ℚ × Option ℚ))
    (row : List (Option ℚ)) : Bool :=
  conds.all (fun c =>
    match df.columns.indexOf? c.1 with
    | some i =>
      match row.getD i none with
      | some v =>
        (match c.2.1 with | some lb => decide (lb ≤ v) | none => true) &&
        (match c.2.2 with | some ub => decide (v ≤ ub) | none => true)
      | none => false
    | none => true)

/-- `wrangle_remove_outliers_tool` (`wrangle_tools.py:261-418`).
`outlier_metadata = none` models a missing/empty metadata dict or a
missing `columns_with_outliers` key; `columns = []` models both `None` and
an empty list (both falsy in `if columns:`). -/
def wrangleRemoveOutliersTool (dataset_id : ℕ)
    (outlier_metadata : Option (List OutlierColInfo)) (columns : List String)
    (s : Store) : Except ErrKind RemoveOutliersResult × Store :=
  match getDataset s dataset_id with
  | none => (.error .dataset_not_found, s)
  | some (df, s1) =>
    match outlier_metadata with
    | none => (.error .invalid_parameter, s1)
    | some cwo =>
      if cwo = [] then
        (.ok { message := "No outliers found in metadata - dataset unchanged"
               original_dataset_id := dataset_id
               new_dataset_id := dataset_id
               n_rows_before := df.rows.length
               n_rows_after := df.rows.length
               columns_processed := [] }, s1)
      else
        let cwo2 := if columns = [] then cwo else
          cwo.filter (fun c =>
            (columns.map (fun x => x.toLower)).contains
              ((c.column_name.getD "").toLower))
        if cwo2 = [] then
          (.ok { message := "Specified columns have no outliers in metadata"
                 original_dataset_id := dataset_id
                 new_dataset_id := dataset_id
                 n_rows_before := df.rows.length
                 n_rows_after := df.rows.length
                 columns_processed := columns }, s1)
        else if outlierFormatCrash df cwo2 then
          (.error .type_error, s1)
        else
          let conds := outlierConds df cwo2
          if conds = [] then
            (.ok { message := "No valid filter conditions could be built from metadata"
                   original_dataset_id := dataset_id
                   new_dataset_id := dataset_id
                   n_rows_before := df.rows.length
                   n_rows_after := df.rows.length
                   columns_processed := [] }, s1)
          else
            let filtered : DF :=
              { columns := df.columns, rows := df.rows.filter (rowInBounds df conds) }
            let reg := registerDataset filtered (some dataset_id) s1
            (.ok { message := "Removed rows containing outliers"
                   original_dataset_id := dataset_id
                   new_dataset_id := reg.1
                   n_rows_before := df.rows.length
                   n_rows_after := filtered.rows.length
                   columns_processed := conds.map (fun c => c.1) }, reg.2)

/-- Registering a fresh dataset after a successful `get_dataset` yields a
handle distinct from every resolvable handle, and leaves the view of the
source handle unchanged. -/
theorem wrangle_register_facts {s : Store} {id : ℕ} {df : DF} {s1 : Store}
    (hwf : s.wf) (hget : getDataset s id = some (df, s1)) (df' : DF) (p : Option ℕ) :
    (registerDataset df' p s1).1 ≠ id ∧
    viewStore (registerDataset df' p s1).2 id = viewStore s id ∧
    (registerDataset df' p s1).2.nextId ≠ s.nextId := by
  obtain ⟨hn, -, -, -, hview, -, hwf'⟩ := getDataset_spec hget
  obtain ⟨hwf1, hlt⟩ := hwf' hwf
  obtain ⟨r1, r2, -, r4, -⟩ := registerDataset_spec df' p s1
  refine ⟨?_, ?_, ?_⟩
  · rw [r1, hn]
    omega
  · rw [r4 id (by rw [hn]; omega), hview id]
  · rw [r2, hn]
    omega

/-- **C1 (amended).** Successful `filter`, `select` and `mutate` always
return a `new_dataset_id` distinct from the input handle and leave the
input dataset's payload (hence its row and column counts) unchanged.
`remove_outliers` does the same whenever it actually registers a filtered
dataset, but its no-op success branches return `new_dataset_id` **equal**
to the input handle (registering nothing and changing nothing). -/
theorem wrangle_new_dataset_distinct (s : Store) (hwf : s.wf) (id : ℕ) :
    (∀ qe cond r s', wrangleFilterRowsTool qe id cond s = (.ok r, s') →
      r.original_dataset_id = id ∧ r.new_dataset_id ≠ id ∧
      viewStore s' id = viewStore s id) ∧
    (∀ cols r s', wrangleSelectColumnsTool id cols s = (.ok r, s') →
      r.original_dataset_id = id ∧ r.new_dataset_id ≠ id ∧
      viewStore s' id = viewStore s id) ∧
    (∀ ee exprs r s', wrangleMutateColumnsTool ee id exprs s = (.ok r, s') →
      r.original_dataset_id = id ∧ r.new_dataset_id ≠ id ∧
      viewStore s' id = viewStore s id) ∧
    (∀ md cols r s', wrangleRemoveOutliersTool id md cols s = (.ok r, s') →
      r.original_dataset_id = id ∧ viewStore s' id = viewStore s id ∧
      (r.new_dataset_id = id → s'.nextId = s.nextId) ∧
      (s'.nextId ≠ s.nextId → r.new_dataset_id ≠ id)) := by
  refine ⟨?_, ?_, ?_, ?_⟩
  · intro qe cond r s' h
    unfold wrangleFilterRowsTool at h
    cases hget : getDataset s id with
    | none => simp only [hget] at h; simp at h
    | some pr =>
      obtain ⟨df, s1⟩ := pr
      simp only [hget] at h
      cases hq : qe df cond with
      | none => simp only [hq] at h; simp at h
      | some mask =>
        simp only [hq] at h
        rw [Prod.mk.injEq] at h
        obtain ⟨h1, h2⟩ := h
        injection h1 with h1
        subst h1
        subst h2
        obtain ⟨f1, f2, -⟩ := wrangle_register_facts hwf hget (applyMask df mask) (some id)
        exact ⟨rfl, f1, f2⟩
  · intro cols r s' h
    unfold wrangleSelectColumnsTool at h
    cases hget : getDataset s id with
    | none => simp only [hget] at h; simp at h
    | some pr =>
      obtain ⟨df, s1⟩ := pr
      simp only [hget] at h
      by_cases hmiss : (cols.filter (fun c => ¬(c ∈ df.columns))) ≠ []
      · rw [if_pos hmiss] at h
        simp at h
      · rw [if_neg hmiss] at h
        rw [Prod.mk.injEq] at h
        obtain ⟨h1, h2⟩ := h
        injection h1 with h1
        subst h1
        subst h2
        obtain ⟨f1, f2, -⟩ := wrangle_register_facts hwf hget (selectDF df cols) (some id)
        exact ⟨rfl, f1, f2⟩
  · intro ee exprs r s' h
    unfold wrangleMutateColumnsTool at h
    cases hget : getDataset s id with
    | none => simp only [hget] at h; simp at h
    | some pr =>
      obtain ⟨df, s1⟩ := pr
      simp only [hget] at h
      cases hl : mutateLoop ee df.columns df [] exprs with
      | error e => simp only [hl] at h; simp at h
      | ok pr2 =>
        obtain ⟨modified, new_cols⟩ := pr2
        simp only [hl] at h
        rw [Prod.mk.injEq] at h
        obtain ⟨h1, h2⟩ := h
        injection h1 with h1
        subst h1
        subst h2
        obtain ⟨f1, f2, -⟩ := wrangle_register_facts hwf hget modified (some id)
        exact ⟨rfl, f1, f2⟩
  · intro md cols r s' h
    unfold wrangleRemoveOutliersTool at h
    cases hget : getDataset s id with
    | none => simp only [hget] at h; simp at h
    | some pr =>
      obtain ⟨df, s1⟩ := pr
      simp only [hget] at h
      obtain ⟨-, -, -, -, hview, -, hwf'⟩ := getDataset_spec hget
      obtain ⟨-, hnid⟩ := getDataset_spec hget
      have hview1 : viewStore s1 id = viewStore s id := hview id
      have hnid1 : s1.nextId = s.nextId := (getDataset_spec hget).1
      cases hmd : md with
      | none => simp only [hmd] at h; simp at h
      | some cwo =>
        simp only [hmd] at h
        by_cases hc0 : cwo = []
        · rw [if_pos hc0] at h
          rw [Prod.mk.injEq] at h
          obtain ⟨h1, h2⟩ := h
          injection h1 with h1
          subst h1
          subst h2
          exact ⟨rfl, hview1, fun _ => hnid1, fun hne => absurd hnid1 hne⟩
        · rw [if_neg hc0] at h
          by_cases hc2 : (if cols = [] then cwo else
              cwo.filter (fun c =>
                (cols.map (fun x => x.toLower)).contains
                  ((c.column_name.getD "").toLower))) = []
          · rw [if_pos hc2] at h
            rw [Prod.mk.injEq] at h
            obtain ⟨h1, h2⟩ := h
            injection h1 with h1
            subst h1
            subst h2
            exact ⟨rfl, hview1, fun _ => hnid1, fun hne => absurd hnid1 hne⟩
          · rw [if_neg hc2] at h
            by_cases hcr : outlierFormatCrash df (if cols = [] then cwo else
                cwo.filter (fun c =>
                  (cols.map (fun x => x.toLower)).contains
                    ((c.column_name.getD "").toLower))) = true
            · rw [if_pos hcr] at h
              simp at h
            · rw [if_neg hcr] at h
              by_cases hnc : outlierConds df (if cols = [] then cwo else
                  cwo.filter (fun c =>
                    (cols.map (fun x => x.toLower)).contains
                      ((c.column_name.getD "").toLower))) = []
              · rw [if_pos hnc] at h
                rw [Prod.mk.injEq] at h
                obtain ⟨h1, h2⟩ := h
                injection h1 with h1
                subst h1
                subst h2
                exact ⟨rfl, hview1, fun _ => hnid1, fun hne => absurd hnid1 hne⟩
              · rw [if_neg hnc] at h
                rw [Prod.mk.injEq] at h
                obtain ⟨h1, h2⟩ := h
                injection h1 with h1
                subst h1
                subst h2
                obtain ⟨f1, f2, f3⟩ := wrangle_register_facts hwf hget _ (some id)
                exact ⟨rfl, f2, fun hid => absurd hid f1, fun _ => f1⟩

/-! ### Concrete fixtures -/

instance {ε α : Type} [DecidableEq ε] [DecidableEq α] : DecidableEq (Except ε α)
  | .ok a, .ok b =>
    if h : a = b then .isTrue (by rw [h]) else
      .isFalse (by intro hc; injection hc; contradiction)
  | .ok _, .error _ => .isFalse (by intro hc; cases hc)
  | .error _, .ok _ => .isFalse (by intro hc; cases hc)
  | .error e, .error f =>
    if h : e = f then .isTrue (by rw [h]) else
      .isFalse (by intro hc; injection hc; contradiction)

instance (s : Store) : Decidable s.wf := by
  unfold Store.wf
  infer_instance

def demoDF : DF := { columns := ["age"], rows := [[some 30], [some 40]] }

def demoStore : Store :=
  { mem := [(0, demoDF)], persisted := [(0, demoDF)], meta := [(0, none)],
    persistFails := false, nextId := 1 }

/-- The store after one filter on `demoStore` (everything kept). -/
def demoStore2 : Store :=
  { mem := [(1, demoDF), (0, demoDF)]
    persisted := [(1, demoDF), (0, demoDF)]
    meta := [(1, some 0), (0, none)]
    persistFails := false
    nextId := 2 }

/-- A query evaluator that keeps every row. -/
def qeAll : DF → String → Option (List Bool) :=
  fun df _ => some (df.rows.map (fun _ => true))

/-- A query evaluator on which every condition is malformed. -/
def qeNone : DF → String → Option (List Bool) := fun _ _ => none

/-- Witness for `wrangle_new_dataset_distinct` at a concrete filter call. -/
theorem wrangle_new_dataset_distinct_witness :
    demoStore.wf ∧
    wrangleFilterRowsTool qeAll 0 "age > 0" demoStore =
      (.ok { original_dataset_id := 0, new_dataset_id := 1, condition := "age > 0",
             n_rows_before := 2, n_rows_after := 2, n_columns := 1 }, demoStore2) ∧
    ({ original_dataset_id := 0, new_dataset_id := 1, condition := "age > 0",
       n_rows_before := 2, n_rows_after := 2, n_columns := 1 : FilterResult }.new_dataset_id ≠ 0 ∧
     viewStore demoStore2 0 = viewStore demoStore 0) :=
  ⟨by decide, by decide,
   ((wrangle_new_dataset_distinct demoStore (by decide) 0).1 qeAll "age > 0"
      { original_dataset_id := 0, new_dataset_id := 1, condition := "age > 0",
        n_rows_before := 2, n_rows_after := 2, n_columns := 1 } demoStore2 (by decide)).2⟩

/-- **C1 (counterexample).** With outlier metadata whose
`columns_with_outliers` list is empty, `remove_outliers` returns a success
envelope whose `new_dataset_id` equals the input `dataset_id` — the
claimed invariant "never equal" fails on this Wrangle operation. -/
theorem remove_outliers_noop_counterexample :
    ((wrangleRemoveOutliersTool 0 (some []) [] demoStore).1.toOption.map
      (fun r => (r.original_dataset_id, r.new_dataset_id))) = some (0, 0) ∧
    (wrangleRemoveOutliersTool 0 (some []) [] demoStore).2 = demoStore := by
  constructor <;> decide

/-- **C9.** Filter/select/mutate failures (malformed expression, missing
column) are detected before any mutation: the operation returns an error,
no dataset is registered (`nextId` unchanged), and every resolvable view
is unchanged; `select` rejects wholesale as soon as any requested column
is missing. -/
theorem wrangle_errors_atomic (s : Store) (id : ℕ) :
    (∀ qe cond e s', wrangleFilterRowsTool qe id cond s = (.error e, s') →
      s'.nextId = s.nextId ∧ ∀ d, viewStore s' d = viewStore s d) ∧
    (∀ qe cond df s1, getDataset s id = some (df, s1) → qe df cond = none →
      (wrangleFilterRowsTool qe id cond s).1 = .error .expression_error) ∧
    (∀ cols e s', wrangleSelectColumnsTool id cols s = (.error e, s') →
      s'.nextId = s.nextId ∧ ∀ d, viewStore s' d = viewStore s d) ∧
    (∀ cols df s1, getDataset s id = some (df, s1) →
      (∃ c ∈ cols, c ∉ df.columns) →
      (wrangleSelectColumnsTool id cols s).1 = .error .column_not_found) ∧
    (∀ ee exprs e s', wrangleMutateColumnsTool ee id exprs s = (.error e, s') →
      s'.nextId = s.nextId ∧ ∀ d, viewStore s' d = viewStore s d) := by
  refine ⟨?_, ?_, ?_, ?_, ?_⟩
  · intro qe cond e s' h
    unfold wrangleFilterRowsTool at h
    cases hget : getDataset s id with
    | none =>
      simp only [hget] at h
      rw [Prod.mk.injEq] at h
      obtain ⟨-, h2⟩ := h
      subst h2
      exact ⟨rfl, fun d => rfl⟩
    | some pr =>
      obtain ⟨df, s1⟩ := pr
      simp only [hget] at h
      cases hq : qe df cond with
      | none =>
        simp only [hq] at h
        rw [Prod.mk.injEq] at h
        obtain ⟨-, h2⟩ := h
        subst h2
        obtain ⟨hn, -, -, -, hview, -, -⟩ := getDataset_spec hget
        exact ⟨hn, hview⟩
      | some mask =>
        simp only [hq] at h
        simp at h
  · intro qe cond df s1 hget hq
    unfold wrangleFilterRowsTool
    simp only [hget, hq]
  · intro cols e s' h
    unfold wrangleSelectColumnsTool at h
    cases hget : getDataset s id with
    | none =>
      simp only [hget] at h
      rw [Prod.mk.injEq] at h
      obtain ⟨-, h2⟩ := h
      subst h2
      exact ⟨rfl, fun d => rfl⟩
    | some pr =>
      obtain ⟨df, s1⟩ := pr
      simp only [hget] at h
      by_cases hmiss : (cols.filter (fun c => ¬(c ∈ df.columns))) ≠ []
      · rw [if_pos hmiss] at h
        rw [Prod.mk.injEq] at h
        obtain ⟨-, h2⟩ := h
        subst h2
        obtain ⟨hn, -, -, -, hview, -, -⟩ := getDataset_spec hget
        exact ⟨hn, hview⟩
      · rw [if_neg hmiss] at h
        simp at h
  · intro cols df s1 hget hmiss
    obtain ⟨c, hc, hcn⟩ := hmiss
    unfold wrangleSelectColumnsTool
    simp only [hget]
    rw [if_pos ?_]
    refine List.ne_nil_of_mem (a := c) ?_
    rw [List.mem_filter]
    exact ⟨hc, by simpa using hcn⟩
  · intro ee exprs e s' h
    unfold wrangleMutateColumnsTool at h
    cases hget : getDataset s id with
    | none =>
      simp only [hget] at h
      rw [Prod.mk.injEq] at h
      obtain ⟨-, h2⟩ := h
      subst h2
      exact ⟨rfl, fun d => rfl⟩
    | some pr =>
      obtain ⟨df, s1⟩ := pr
      simp only [hget] at h
      cases hl : mutateLoop ee df.columns df [] exprs with
      | error e0 =>
        simp only [hl] at h
        rw [Prod.mk.injEq] at h
        obtain ⟨-, h2⟩ := h
        subst h2
        obtain ⟨hn, -, -, -, hview, -, -⟩ := getDataset_spec hget
        exact ⟨hn, hview⟩
      | ok pr2 =>
        obtain ⟨modified, new_cols⟩ := pr2
        simp only [hl] at h
        simp at h

/-- Witness for `wrangle_errors_atomic` at concrete failing calls. -/
theorem wrangle_errors_atomic_witness :
    wrangleFilterRowsTool qeNone 0 "bogus(" demoStore = (.error .expression_error, demoStore) ∧
    (wrangleFilterRowsTool qeNone 0 "bogus(" demoStore).2.nextId = demoStore.nextId ∧
    viewStore (wrangleFilterRowsTool qeNone 0 "bogus(" demoStore).2 0 = viewStore demoStore 0 ∧
    (wrangleSelectColumnsTool 0 ["nope"] demoStore).1 = .error .column_not_found :=
  ⟨by decide,
   ((wrangle_errors_atomic demoStore 0).1 qeNone "bogus(" .expression_error demoStore
      (by decide)).1,
   ((wrangle_errors_atomic demoStore 0).1 qeNone "bogus(" .expression_error
      (wrangleFilterRowsTool qeNone 0 "bogus(" demoStore).2 (by decide)).2 0,
   (wrangle_errors_atomic demoStore 0).2.2.2.1 ["nope"] demoDF demoStore (by decide)
     ⟨"nope", by decide, by decide⟩⟩

/-! ## Lineage (`src/utils/persistent_store.py:346-359`)

`get_dataset_lineage` is a `while` loop over the sqlite metadata records;
it terminates exactly when the parent chain is acyclic, so the embedding
runs it on fuel.  `getDatasetLineage` uses one more unit of fuel than
there are metadata records, enough for any chain of fully recorded,
pairwise distinct handles. -/

def lookupMeta (s : Store) (i : ℕ) : Option (Option ℕ) := alookup i s.meta

def lineageAux (lookup : ℕ → Option (Option ℕ)) : ℕ → ℕ → List ℕ
  | 0, _ => []
  | fuel + 1, cur =>
    match lookup cur with
    | none => []
    | some parent =>
      cur :: (match parent with
              | none => []
              | some p => lineageAux lookup fuel p)

def getDatasetLineage (s : Store) (id : ℕ) : List ℕ :=
  lineageAux (lookupMeta s) (s.meta.length + 1) id

/-- A fully recorded parent chain: every link has a metadata record and
the last record's parent is null. -/
inductive IsChain (lookup : ℕ → Option (Option ℕ)) : ℕ → List ℕ → Prop
  | last {c : ℕ} : lookup c = some none → IsChain lookup c [c]
  | cons {c p : ℕ} {l : List ℕ} :
      lookup c = some (some p) → IsChain lookup p l → IsChain lookup c (c :: l)

theorem lineageAux_of_isChain {lookup : ℕ → Option (Option ℕ)} {id : ℕ} {l : List ℕ}
    (h : IsChain lookup id l) :
    ∀ fuel, l.length ≤ fuel → lineageAux lookup fuel id = l := by
  induction h with
  | last hc =>
    intro fuel hf
    cases fuel with
    | zero => simp at hf
    | succ fuel =>
      unfold lineageAux
      simp only [hc]
  | cons hc hch ih =>
    intro fuel hf
    cases fuel with
    | zero => simp at hf
    | succ fuel =>
      unfold lineageAux
      simp only [hc]
      congr 1
      exact ih fuel (by simpa using Nat.succ_le_succ_iff.mp (by simpa using hf))

/-- **C6.** For a dataset whose metadata chain is fully recorded (and
short enough to be a chain of distinct recorded handles), the lineage walk
follows `parent_dataset_id` until a null parent and returns the chain
child-first. -/
theorem lineage_walks_parent_chain (s : Store) (id : ℕ) (l : List ℕ)
    (h : IsChain (lookupMeta s) id l) (hlen : l.length ≤ s.meta.length + 1) :
    getDatasetLineage s id = l :=
  lineageAux_of_isChain h _ hlen

/-- Dataset A registered by ingestion, then two chained filters A → B → C:
the lineage store after the three operations. -/
def chainStoreA : Store := (registerDataset demoDF none
  { mem := [], persisted := [], meta := [], persistFails := false, nextId := 0 }).2

def chainStoreB : Store := (wrangleFilterRowsTool qeAll 0 "age > 0" chainStoreA).2

def chainStoreC : Store := (wrangleFilterRowsTool qeAll 1 "age > 10" chainStoreB).2

/-- Witness for `lineage_walks_parent_chain`: after three chained wrangle
operations A(0) → B(1) → C(2), `lineage(C) = [C, B, A]`. -/
theorem lineage_walks_parent_chain_witness :
    getDatasetLineage chainStoreC 2 = [2, 1, 0] :=
  lineage_walks_parent_chain chainStoreC 2 [2, 1, 0]
    (IsChain.cons (by decide) (IsChain.cons (by decide) (IsChain.last (by decide))))
    (by decide)

/-! ## Registration under persistence failure (`src/utils/data_store.py:30-48`) -/

/-- **C8 (amended).** When the durable write fails, registration still
succeeds: the returned handle is fresh and resolvable in memory.  But the
failure is silently swallowed (`except Exception: pass`), not surfaced as
a warning: the caller receives exactly the same return value and the same
in-memory state as in a run whose durable write succeeds — the only
difference is the durable store itself. -/
theorem register_persist_failure_amended (df : DF) (parent : Option ℕ) (s : Store) :
    (registerDataset df parent { s with persistFails := true }).1 = s.nextId ∧
    viewStore (registerDataset df parent { s with persistFails := true }).2 s.nextId = some df ∧
    (registerDataset df parent { s with persistFails := true }).1 =
      (registerDataset df parent { s with persistFails := false }).1 ∧
    (registerDataset df parent { s with persistFails := true }).2.mem =
      (registerDataset df parent { s with persistFails := false }).2.mem ∧
    (registerDataset df parent { s with persistFails := true }).2.persisted = s.persisted ∧
    (registerDataset df parent { s with persistFails := true }).2.meta = s.meta := by
  refine ⟨rfl, ?_, rfl, rfl, ?_, ?_⟩
  · exact (registerDataset_spec df parent { s with persistFails := true }).2.2.1
  · unfold registerDataset
    simp
  · unfold registerDataset
    simp

/-- **C8 (counterexample).** The claim that the persistence failure "is
surfaced to the caller as a warning" is false: on the same input, the
failing-write run and the successful-write run return the identical
handle and identical in-memory state, so the caller cannot observe any
warning; only the durable store differs. -/
theorem register_failure_silent_counterexample :
    (registerDataset demoDF none { demoStore with persistFails := true }).1 =
      (registerDataset demoDF none demoStore).1 ∧
    (registerDataset demoDF none { demoStore with persistFails := true }).2.mem =
      (registerDataset demoDF none demoStore).2.mem ∧
    (registerDataset demoDF none { demoStore with persistFails := true }).2.persisted =
      demoStore.persisted ∧
    (registerDataset demoDF none demoStore).2.persisted ≠ demoStore.persisted := by
  refine ⟨by decide, by decide, by decide, by decide⟩

/-! ## Render cache (`src/tools/eda_viz_tools.py:108-249`)

`_PLOT_CACHE` keyed by the normalized tuple, the artifact files on disk,
and the uuid4 filename generator become a `VizState`; artifact paths are
modelled as the naturals the generator issues (`VizState.wf` is the
freshness uuid4 provides).  The matplotlib/seaborn rendering itself is
summarised by `renderOk` (the chart-type dispatch and its
`scatter`/`line` preconditions); a successful render writes one fresh
file and stores it under the cache key. -/

structure VizKey where
  dataset_id : ℕ
  chart_type : String
  x : Option String
  y : Option String
  hue : Option String
  bins : ℕ
deriving DecidableEq

structure VizResult where
  file_path : ℕ
  reused : Bool
deriving DecidableEq

structure VizState where
  cache : List (VizKey × ℕ)
  files : List ℕ
  nextArt : ℕ
deriving DecidableEq

def VizState.wf (v : VizState) : Prop :=
  (∀ f ∈ v.files, f < v.nextArt) ∧ (∀ e ∈ v.cache, e.2 < v.nextArt)

instance (v : VizState) : Decidable v.wf := by
  unfold VizState.wf
  infer_instance

/-- Chart-type dispatch: `scatter` and `line` require `y`; an unknown
chart type raises. -/
def renderOk (key : VizKey) : Bool :=
  match key.chart_type with
  | "histogram" => true
  | "box" => true
  | "boxplot" => true
  | "scatter" => key.y.isSome
  | "bar" => true
  | "line" => key.y.isSome
  | "pie" => true
  | _ => false

/-- The non-cached tail of `render_plot_from_spec`: resolve the dataset,
render, save a fresh artifact, store it in the cache. -/
def renderFresh (store : Store) (v : VizState) (key : VizKey) :
    Except String (VizResult × VizState) :=
  if viewStore store key.dataset_id = none then .error "Dataset ID not found"
  else if renderOk key = false then .error "Unsupported chart spec"
  else .ok ({ file_path := v.nextArt, reused := false },
    { cache := (key, v.nextArt) :: aremove key v.cache
      files := v.nextArt :: v.files
      nextArt := v.nextArt + 1 })

def renderPlotFromSpec (store : Store) (v : VizState) (key : VizKey) :
    Except String (VizResult × VizState) :=
  match alookup key v.cache with
  | some p =>
    if p ∈ v.files then .ok ({ file_path := p, reused := true }, v)
    else renderFresh store { v with cache := aremove key v.cache } key
  | none => renderFresh store v key

theorem renderFresh_ok {store : Store} {v : VizState} {key : VizKey}
    {r1 : VizResult} {v1 : VizState}
    (h : renderFresh store v key = .ok (r1, v1)) :
    r1 = { file_path := v.nextArt, reused := false } ∧
    v1 = { cache := (key, v.nextArt) :: aremove key v.cache,
           files := v.nextArt :: v.files, nextArt := v.nextArt + 1 } := by
  unfold renderFresh at h
  by_cases h1 : viewStore store key.dataset_id = none
  · rw [if_pos h1] at h
    simp at h
  · rw [if_neg h1] at h
    by_cases h2 : renderOk key = false
    · rw [if_pos h2] at h
      simp at h
    · rw [if_neg h2] at h
      rw [Except.ok.injEq, Prod.mk.injEq] at h
      exact ⟨h.1.symm, h.2.symm⟩

/-- **C7.** After any successful render, a second call with the identical
normalized spec tuple returns the same artifact path with `reused = true`
and leaves the state unchanged; and when the first call hit a stale cache
entry (path no longer among the files), that entry was evicted: the call
re-rendered (`reused = false`) into a fresh path now cached and on disk. -/
theorem render_cache_dedup (store : Store) (v : VizState) (key : VizKey)
    (hwf : v.wf) (r1 : VizResult) (v1 : VizState)
    (h1 : renderPlotFromSpec store v key = .ok (r1, v1)) :
    renderPlotFromSpec store v1 key = .ok ({ file_path := r1.file_path, reused := true }, v1) ∧
    (∀ p, alookup key v.cache = some p → ¬(p ∈ v.files) →
      r1.reused = false ∧ alookup key v1.cache = some r1.file_path ∧
      r1.file_path ≠ p ∧ r1.file_path ∈ v1.files) := by
  unfold renderPlotFromSpec at h1
  cases hc : alookup key v.cache with
  | some p0 =>
    simp only [hc] at h1
    by_cases hf : p0 ∈ v.files
    · rw [if_pos hf] at h1
      rw [Except.ok.injEq, Prod.mk.injEq] at h1
      obtain ⟨hr, hv⟩ := h1
      subst hr
      subst hv
      constructor
      · unfold renderPlotFromSpec
        simp only [hc]
        rw [if_pos hf]
      · intro p hp hnp
        injection hp with hp
        subst hp
        exact absurd hf hnp
    · rw [if_neg hf] at h1
      obtain ⟨hr, hv⟩ := renderFresh_ok h1
      subst hr
      subst hv
      have hlook : alookup key ((key, v.nextArt) :: aremove key (aremove key v.cache)) =
          some v.nextArt := if_pos rfl
      constructor
      · unfold renderPlotFromSpec
        simp only [hlook]
        rw [if_pos (List.mem_cons_self _ _)]
      · intro p hp hnp
        injection hp with hp
        subst hp
        have hplt : p0 < v.nextArt := hwf.2 _ (alookup_eq_some_mem hc)
        exact ⟨rfl, hlook, by show v.nextArt ≠ p0; omega, List.mem_cons_self _ _⟩
  | none =>
    simp only [hc] at h1
    obtain ⟨hr, hv⟩ := renderFresh_ok h1
    subst hr
    subst hv
    have hlook : alookup key ((key, v.nextArt) :: aremove key v.cache) = some v.nextArt :=
      if_pos rfl
    constructor
    · unfold renderPlotFromSpec
      simp only [hlook]
      rw [if_pos (List.mem_cons_self _ _)]
    · intro p hp hnp
      exact Option.noConfusion hp

/-- Concrete fixtures for the render-cache witness. -/
def demoKey : VizKey :=
  { dataset_id := 0, chart_type := "histogram", x := some "age", y := none,
    hue := none, bins := 10 }

def demoVizEmpty : VizState := { cache := [], files := [], nextArt := 0 }

def demoVizAfter : VizState := { cache := [(demoKey, 0)], files := [0], nextArt := 1 }

def demoVizStale : VizState := { cache := [(demoKey, 5)], files := [], nextArt := 6 }

def demoVizStaleAfter : VizState := { cache := [(demoKey, 6)], files := [6], nextArt := 7 }

/-- Witness for `render_cache_dedup`: a fresh render of a histogram spec
followed by an identical call that reuses the artifact, and a stale-entry
call that evicts and regenerates. -/
theorem render_cache_dedup_witness :
    demoVizEmpty.wf ∧
    renderPlotFromSpec demoStore demoVizAfter demoKey =
      .ok ({ file_path := 0, reused := true }, demoVizAfter) ∧
    (({ file_path := 6, reused := false } : VizResult).reused = false ∧
     alookup demoKey demoVizStaleAfter.cache =
       some ({ file_path := 6, reused := false } : VizResult).file_path ∧
     ({ file_path := 6, reused := false } : VizResult).file_path ≠ 5 ∧
     ({ file_path := 6, reused := false } : VizResult).file_path ∈ demoVizStaleAfter.files) :=
  ⟨by decide,
   (render_cache_dedup demoStore demoVizEmpty demoKey (by decide)
      { file_path := 0, reused := false } demoVizAfter (by decide)).1,
   (render_cache_dedup demoStore demoVizStale demoKey (by decide)
      { file_path := 6, reused := false } demoVizStaleAfter (by decide)).2 5
     (by decide) (by decide)⟩

end EdaAgent
